import Mathlib

/-!
Verification of the `slack.rs` messaging client (`src/lib.rs`).

The library is a thin Slack HTTP client: a `SlackClient` holds a bearer
token and exposes three operations — `post_message`, `post_ephemeral` and
`open_modal` — each of which builds a JSON body from its arguments, sends
one HTTPS POST with `Authorization: Bearer <token>`, and deserializes the
JSON response into a typed struct (`SlackPostMessageResponse`,
`SlackEphemeralResponse`, `SlackViewOpenResponse`).

The embedding below models `serde_json::Value` as an inductive `Json`
type, the request construction exactly as the source builds it (a JSON
object literal, with an optional in-place insertion of the `blocks`
payload), serde's derived `Deserialize` for the response structs as
explicit decoders (missing `Option` fields become `none`, wrong-typed or
missing required fields fail the whole decode, unknown fields are
ignored), and the transport as an oracle mapping the issued HTTP request
to an outcome: a transport failure before any response, or a response
body that may or may not be valid JSON.  Errors follow `reqwest::Error`'s
kind: a `send()` failure has the request/connect kind, a `.json()` failure
the decode kind; both propagate via `?`, while a decoded response with
`ok = false` is returned normally as data.
-/

namespace SlackRs

/-- Model of `serde_json::Value`: a JSON tree.  Objects are field lists;
numbers are integers (no claim here concerns numeric payloads). -/
inductive Json where
  | null : Json
  | bool : Bool → Json
  | num : Int → Json
  | str : String → Json
  | arr : List Json → Json
  | obj : List (String × Json) → Json

/-- First value bound to `key` in a field list (serde-style lookup). -/
def lookupField (fields : List (String × Json)) (key : String) : Option Json :=
  match fields with
  | [] => none
  | (k, v) :: rest => if k = key then some v else lookupField rest key

/-- Field lookup on a JSON value: `none` off objects. -/
def Json.getField : Json → String → Option Json
  | .obj fields, key => lookupField fields key
  | _, _ => none

/-- Insertion into a field list: replace the value if the key is present,
append the pair otherwise (the behaviour of `body[key] = v` on a
`serde_json` object). -/
def setFieldList (fields : List (String × Json)) (key : String) (v : Json) :
    List (String × Json) :=
  match fields with
  | [] => [(key, v)]
  | (k, w) :: rest =>
      if k = key then (k, v) :: rest else (k, w) :: setFieldList rest key v

/-- Model of `body[key] = v` (`serde_json::Value::index_mut` assignment);
the source only ever applies it to objects. -/
def Json.setField : Json → String → Json → Json
  | .obj fields, key, v => .obj (setFieldList fields key v)
  | j, _, _ => j

/-- Request body built by `post_message` (src/lib.rs lines 41-49):
`{"channel": channel, "text": text}`, then `body["blocks"] = blocks_json`
when `blocks` is `Some`. -/
def postMessageBody (channel text : String) (blocks : Option Json) : Json :=
  let body := Json.obj [("channel", .str channel), ("text", .str text)]
  match blocks with
  | some blocks_json => body.setField "blocks" blocks_json
  | none => body

/-- Request body built by `post_ephemeral` (src/lib.rs lines 84-92):
`{"channel": channel, "user": user_id, "text": text}`, then
`body["blocks"] = blocks_json` when `blocks` is `Some`. -/
def postEphemeralBody (channel user_id text : String) (blocks : Option Json) :
    Json :=
  let body := Json.obj
    [("channel", .str channel), ("user", .str user_id), ("text", .str text)]
  match blocks with
  | some blocks_json => body.setField "blocks" blocks_json
  | none => body

/-- Request body built by `open_modal` (src/lib.rs lines 124-127):
`{"trigger_id": trigger_id, "view": view}`. -/
def openModalBody (trigger_id : String) (view : Json) : Json :=
  Json.obj [("trigger_id", .str trigger_id), ("view", view)]

/-- Slack's top-level response for `chat.postMessage` (src/lib.rs 147-154). -/
structure SlackPostMessageResponse where
  ok : Bool
  channel : Option String
  ts : Option String
  error : Option String

/-- Slack's top-level response for `chat.postEphemeral` (src/lib.rs 157-163). -/
structure SlackEphemeralResponse where
  ok : Bool
  message_ts : Option String
  error : Option String

/-- Minimal Slack View object (src/lib.rs 174-178): a required `id` string. -/
structure SlackView where
  id : String

/-- Slack's top-level response for `views.open` (src/lib.rs 166-171). -/
structure SlackViewOpenResponse where
  ok : Bool
  view : Option SlackView
  error : Option String

/-- serde decoding of a required `bool` field from its looked-up value:
missing or non-boolean fails. -/
def decodeBool : Option Json → Option Bool
  | some (.bool b) => some b
  | _ => none

/-- serde decoding of a required `String` field: missing or non-string
fails. -/
def decodeString : Option Json → Option String
  | some (.str s) => some s
  | _ => none

/-- serde decoding of an `Option<String>` field: a missing field and
`null` both give `none`; a string gives `some`; any other value fails. -/
def decodeOptString : Option Json → Option (Option String)
  | none => some none
  | some .null => some none
  | some (.str s) => some (some s)
  | some _ => none

/-- serde's derived `Deserialize` for `SlackView`: an object with a
required string field `id`; unknown fields ignored. -/
def decodeSlackView : Json → Option SlackView
  | .obj fields => (decodeString (lookupField fields "id")).map SlackView.mk
  | _ => none

/-- serde decoding of an `Option<SlackView>` field: missing or `null`
gives `none`; any other value must decode as a `SlackView`. -/
def decodeOptView : Option Json → Option (Option SlackView)
  | none => some none
  | some .null => some none
  | some j => (decodeSlackView j).map some

/-- serde's derived `Deserialize` for `SlackPostMessageResponse`. -/
def decodePostMessageResponse (j : Json) : Option SlackPostMessageResponse :=
  match j with
  | .obj fields =>
      (decodeBool (lookupField fields "ok")).bind fun ok =>
      (decodeOptString (lookupField fields "channel")).bind fun channel =>
      (decodeOptString (lookupField fields "ts")).bind fun ts =>
      (decodeOptString (lookupField fields "error")).map fun error =>
      SlackPostMessageResponse.mk ok channel ts error
  | _ => none

/-- serde's derived `Deserialize` for `SlackEphemeralResponse`. -/
def decodeEphemeralResponse (j : Json) : Option SlackEphemeralResponse :=
  match j with
  | .obj fields =>
      (decodeBool (lookupField fields "ok")).bind fun ok =>
      (decodeOptString (lookupField fields "message_ts")).bind fun message_ts =>
      (decodeOptString (lookupField fields "error")).map fun error =>
      SlackEphemeralResponse.mk ok message_ts error
  | _ => none

/-- serde's derived `Deserialize` for `SlackViewOpenResponse`. -/
def decodeViewOpenResponse (j : Json) : Option SlackViewOpenResponse :=
  match j with
  | .obj fields =>
      (decodeBool (lookupField fields "ok")).bind fun ok =>
      (decodeOptView (lookupField fields "view")).bind fun view =>
      (decodeOptString (lookupField fields "error")).map fun error =>
      SlackViewOpenResponse.mk ok view error
  | _ => none

/-- Kind of a `reqwest::Error` as the three operations can produce it:
`request` for a failure of `.send()` (connection, TLS, timeout — no
response obtained), `decode` for a failure of `.json::<T>()` (body
received but not decodable into the expected shape). -/
inductive ReqwestErrorKind where
  | request : ReqwestErrorKind
  | decode : ReqwestErrorKind

/-- Outcome of one network exchange as seen by the client: either the
send fails before any response, or a response arrives whose body is
`some j` when it is valid JSON and `none` when it is not parseable. -/
inductive TransportOutcome where
  | failed : TransportOutcome
  | response : Option Json → TransportOutcome

/-- The one HTTP request an operation issues: method, URL, the bearer
token of the `Authorization` header, and the JSON body. -/
structure HttpRequest where
  method : String
  url : String
  bearerToken : String
  body : Json

/-- The Slack client (src/lib.rs 8-11): it holds only the bearer token
(the reusable `reqwest::Client` carries no observable state here). -/
structure SlackClient where
  token : String

/-- `SlackClient::new` (src/lib.rs 15-20). -/
def SlackClient.new (token : String) : SlackClient :=
  SlackClient.mk token

/-- Shared response handling of all three operations: a `send()` failure
propagates with the request kind via `?`; a received body is fed to
`.json::<T>()`, whose failure propagates with the decode kind; a decoded
value is returned with `Ok`. -/
def handleResponse {α : Type} (dec : Json → Option α) :
    TransportOutcome → Except ReqwestErrorKind α
  | .failed => .error .request
  | .response none => .error .decode
  | .response (some j) =>
      match dec j with
      | some r => .ok r
      | none => .error .decode

/-- `SlackClient::post_message` (src/lib.rs 32-62), with the transport
abstracted as an oracle `net` from the issued request to its outcome.
The first component is the list of requests sent (always exactly one). -/
def SlackClient.post_message (c : SlackClient) (channel text : String)
    (blocks : Option Json) (net : HttpRequest → TransportOutcome) :
    List HttpRequest × Except ReqwestErrorKind SlackPostMessageResponse :=
  let req := HttpRequest.mk "POST" "https://slack.com/api/chat.postMessage"
    c.token (postMessageBody channel text blocks)
  ([req], handleResponse decodePostMessageResponse (net req))

/-- `SlackClient::post_ephemeral` (src/lib.rs 75-104). -/
def SlackClient.post_ephemeral (c : SlackClient) (channel user_id text : String)
    (blocks : Option Json) (net : HttpRequest → TransportOutcome) :
    List HttpRequest × Except ReqwestErrorKind SlackEphemeralResponse :=
  let req := HttpRequest.mk "POST" "https://slack.com/api/chat.postEphemeral"
    c.token (postEphemeralBody channel user_id text blocks)
  ([req], handleResponse decodeEphemeralResponse (net req))

/-- `SlackClient::open_modal` (src/lib.rs 117-139). -/
def SlackClient.open_modal (c : SlackClient) (trigger_id : String)
    (view : Json) (net : HttpRequest → TransportOutcome) :
    List HttpRequest × Except ReqwestErrorKind SlackViewOpenResponse :=
  let req := HttpRequest.mk "POST" "https://slack.com/api/views.open"
    c.token (openModalBody trigger_id view)
  ([req], handleResponse decodeViewOpenResponse (net req))

/-- Trichotomy of `handleResponse`: the request-kind error appears
exactly on transport failure, the decode-kind error exactly when a body
arrived but did not decode, and a normal return exactly on a decoded
body — the three cases are mutually exclusive and exhaustive. -/
theorem handleResponse_cases {α : Type} (dec : Json → Option α)
    (t : TransportOutcome) :
    (handleResponse dec t = .error .request ↔ t = .failed) ∧
    (handleResponse dec t = .error .decode ↔
      ∃ b, t = .response b ∧ Option.bind b dec = none) ∧
    (∀ r, handleResponse dec t = .ok r ↔
      ∃ j, t = .response (some j) ∧ dec j = some r) := by
  cases t with
  | failed => simp [handleResponse]
  | response b =>
      cases b with
      | none => simp [handleResponse]
      | some j =>
          cases hd : dec j with
          | none => simp [handleResponse, hd]
          | some r => simp [handleResponse, hd]

/-- C1: for each of `post_message`, `post_ephemeral` and `open_modal`,
the outcome is exactly one of three mutually distinguishable kinds: the
request-kind error exactly when the transport failed before a response,
the decode-kind error exactly when a body arrived but did not decode
into the expected shape, and a normal return of the decoded value
otherwise (which is where an API-level `ok = false` response lands) —
with the two error kinds distinct from each other. -/
theorem operations_error_taxonomy :
    ReqwestErrorKind.request ≠ ReqwestErrorKind.decode ∧
    (∀ (c : SlackClient) (channel text : String) (blocks : Option Json)
        (t : TransportOutcome),
      ((c.post_message channel text blocks fun _ => t).2 =
          .error .request ↔ t = .failed) ∧
      ((c.post_message channel text blocks fun _ => t).2 =
          .error .decode ↔
        ∃ b, t = .response b ∧
          Option.bind b decodePostMessageResponse = none) ∧
      (∀ r, (c.post_message channel text blocks fun _ => t).2 = .ok r ↔
        ∃ j, t = .response (some j) ∧
          decodePostMessageResponse j = some r)) ∧
    (∀ (c : SlackClient) (channel user_id text : String)
        (blocks : Option Json) (t : TransportOutcome),
      ((c.post_ephemeral channel user_id text blocks fun _ => t).2 =
          .error .request ↔ t = .failed) ∧
      ((c.post_ephemeral channel user_id text blocks fun _ => t).2 =
          .error .decode ↔
        ∃ b, t = .response b ∧
          Option.bind b decodeEphemeralResponse = none) ∧
      (∀ r, (c.post_ephemeral channel user_id text blocks
            fun _ => t).2 = .ok r ↔
        ∃ j, t = .response (some j) ∧
          decodeEphemeralResponse j = some r)) ∧
    (∀ (c : SlackClient) (trigger_id : String) (view : Json)
        (t : TransportOutcome),
      ((c.open_modal trigger_id view fun _ => t).2 =
          .error .request ↔ t = .failed) ∧
      ((c.open_modal trigger_id view fun _ => t).2 = .error .decode ↔
        ∃ b, t = .response b ∧
          Option.bind b decodeViewOpenResponse = none) ∧
      (∀ r, (c.open_modal trigger_id view fun _ => t).2 = .ok r ↔
        ∃ j, t = .response (some j) ∧
          decodeViewOpenResponse j = some r)) :=
  ⟨fun h => ReqwestErrorKind.noConfusion h,
   fun _ _ _ _ t => handleResponse_cases decodePostMessageResponse t,
   fun _ _ _ _ _ t => handleResponse_cases decodeEphemeralResponse t,
   fun _ _ _ t => handleResponse_cases decodeViewOpenResponse t⟩

/-- C2: for every (channel, text) pair, the JSON body built by
`post_message` is exactly `{"channel": channel, "text": text}` when the
blocks argument is absent, and exactly
`{"channel": channel, "text": text, "blocks": blocks}` — the blocks
payload inserted unmodified — when it is present. -/
theorem post_message_body_exact_fields :
    (∀ channel text : String,
      postMessageBody channel text none =
        Json.obj [("channel", .str channel), ("text", .str text)]) ∧
    (∀ (channel text : String) (b : Json),
      postMessageBody channel text (some b) =
        Json.obj [("channel", .str channel), ("text", .str text),
                  ("blocks", b)]) :=
  ⟨fun _ _ => rfl, fun _ _ _ => rfl⟩

/-- C3: for every (channel, user, text) triple, the JSON body built by
`post_ephemeral` carries the three arguments verbatim under `"channel"`,
`"user"` and `"text"`, and a given blocks payload appears under
`"blocks"` equal to the value passed in. -/
theorem post_ephemeral_body_exact_fields :
    (∀ channel user_id text : String,
      postEphemeralBody channel user_id text none =
        Json.obj [("channel", .str channel), ("user", .str user_id),
                  ("text", .str text)]) ∧
    (∀ (channel user_id text : String) (b : Json),
      postEphemeralBody channel user_id text (some b) =
        Json.obj [("channel", .str channel), ("user", .str user_id),
                  ("text", .str text), ("blocks", b)]) :=
  ⟨fun _ _ _ => rfl, fun _ _ _ _ => rfl⟩

/-- C4: for every trigger string and view value, the JSON body built by
`open_modal` is exactly `{"trigger_id": trigger, "view": view}` with
both values verbatim and no other fields. -/
theorem open_modal_body_exact_fields :
    ∀ (trigger_id : String) (view : Json),
      openModalBody trigger_id view =
        Json.obj [("trigger_id", .str trigger_id), ("view", view)] :=
  fun _ _ => rfl

/-- C5: decoding `{"ok":true,"channel":"C1","ts":"123.45"}` makes
`post_message` return `Ok` of success, channel `"C1"`, ts `"123.45"` and
no error; decoding `{"ok":false,"error":"channel_not_found"}` makes it
return `Ok` of failure with that error code and neither channel nor ts. -/
theorem post_message_decode_examples :
    ((SlackClient.new "tok").post_message "C1" "hello" none fun _ =>
        .response (some (Json.obj
          [("ok", .bool true), ("channel", .str "C1"),
           ("ts", .str "123.45")]))).2 =
      .ok (SlackPostMessageResponse.mk true (some "C1") (some "123.45")
        none) ∧
    ((SlackClient.new "tok").post_message "C1" "hello" none fun _ =>
        .response (some (Json.obj
          [("ok", .bool false),
           ("error", .str "channel_not_found")]))).2 =
      .ok (SlackPostMessageResponse.mk false none none
        (some "channel_not_found")) :=
  ⟨rfl, rfl⟩

/-- C7: every call of each operation issues exactly one HTTPS POST to
that operation's fixed endpoint, bearing as bearer token exactly the
credential the client was constructed with, and a JSON body built from
the arguments; `SlackClient.new` stores the credential unchanged, so the
token is the same across all calls on one client. -/
theorem operations_single_post_fixed_endpoint_bearer :
    (∀ token : String, (SlackClient.new token).token = token) ∧
    (∀ (c : SlackClient) (channel text : String) (blocks : Option Json)
        (net : HttpRequest → TransportOutcome),
      (c.post_message channel text blocks net).1 =
        [HttpRequest.mk "POST" "https://slack.com/api/chat.postMessage"
          c.token (postMessageBody channel text blocks)]) ∧
    (∀ (c : SlackClient) (channel user_id text : String)
        (blocks : Option Json) (net : HttpRequest → TransportOutcome),
      (c.post_ephemeral channel user_id text blocks net).1 =
        [HttpRequest.mk "POST" "https://slack.com/api/chat.postEphemeral"
          c.token (postEphemeralBody channel user_id text blocks)]) ∧
    (∀ (c : SlackClient) (trigger_id : String) (view : Json)
        (net : HttpRequest → TransportOutcome),
      (c.open_modal trigger_id view net).1 =
        [HttpRequest.mk "POST" "https://slack.com/api/views.open"
          c.token (openModalBody trigger_id view)]) :=
  ⟨fun _ => rfl, fun _ _ _ _ _ => rfl, fun _ _ _ _ _ _ => rfl,
   fun _ _ _ _ => rfl⟩

/-- C6: whenever a response body decodes successfully with success flag
false and an error code present, each operation returns normally
(`Except.ok`) carrying that decoded value as data — the flag and the
error code are accessible to the caller — rather than propagating an
error of the operation. -/
theorem api_failure_returned_as_data
    (j1 j2 j3 : Json) (e1 e2 e3 : String)
    (r1 : SlackPostMessageResponse) (r2 : SlackEphemeralResponse)
    (r3 : SlackViewOpenResponse)
    (h1 : decodePostMessageResponse j1 = some r1)
    (hok1 : r1.ok = false) (herr1 : r1.error = some e1)
    (h2 : decodeEphemeralResponse j2 = some r2)
    (hok2 : r2.ok = false) (herr2 : r2.error = some e2)
    (h3 : decodeViewOpenResponse j3 = some r3)
    (hok3 : r3.ok = false) (herr3 : r3.error = some e3) :
    (∀ (c : SlackClient) (channel text : String) (blocks : Option Json),
      (c.post_message channel text blocks fun _ =>
          .response (some j1)).2 = .ok r1 ∧
      r1.ok = false ∧ r1.error = some e1) ∧
    (∀ (c : SlackClient) (channel user_id text : String)
        (blocks : Option Json),
      (c.post_ephemeral channel user_id text blocks fun _ =>
          .response (some j2)).2 = .ok r2 ∧
      r2.ok = false ∧ r2.error = some e2) ∧
    (∀ (c : SlackClient) (trigger_id : String) (view : Json),
      (c.open_modal trigger_id view fun _ =>
          .response (some j3)).2 = .ok r3 ∧
      r3.ok = false ∧ r3.error = some e3) := by
  refine ⟨fun c channel text blocks => ⟨?_, hok1, herr1⟩,
          fun c channel user_id text blocks => ⟨?_, hok2, herr2⟩,
          fun c trigger_id view => ⟨?_, hok3, herr3⟩⟩
  · simp [SlackClient.post_message, handleResponse, h1]
  · simp [SlackClient.post_ephemeral, handleResponse, h2]
  · simp [SlackClient.open_modal, handleResponse, h3]

/-- Witness for C6 at the body `{"ok":false,"error":"channel_not_found"}`
for all three operations. -/
theorem api_failure_returned_as_data_witness :
    ((SlackClient.new "tok").post_message "C1" "hi" none fun _ =>
        .response (some (Json.obj
          [("ok", .bool false),
           ("error", .str "channel_not_found")]))).2 =
      .ok (SlackPostMessageResponse.mk false none none
        (some "channel_not_found")) ∧
    ((SlackClient.new "tok").post_ephemeral "C1" "U1" "hi" none fun _ =>
        .response (some (Json.obj
          [("ok", .bool false),
           ("error", .str "channel_not_found")]))).2 =
      .ok (SlackEphemeralResponse.mk false none
        (some "channel_not_found")) ∧
    ((SlackClient.new "tok").open_modal "trig" Json.null fun _ =>
        .response (some (Json.obj
          [("ok", .bool false),
           ("error", .str "channel_not_found")]))).2 =
      .ok (SlackViewOpenResponse.mk false none
        (some "channel_not_found")) := by
  have h := api_failure_returned_as_data
    (Json.obj [("ok", .bool false), ("error", .str "channel_not_found")])
    (Json.obj [("ok", .bool false), ("error", .str "channel_not_found")])
    (Json.obj [("ok", .bool false), ("error", .str "channel_not_found")])
    "channel_not_found" "channel_not_found" "channel_not_found"
    (SlackPostMessageResponse.mk false none none
      (some "channel_not_found"))
    (SlackEphemeralResponse.mk false none (some "channel_not_found"))
    (SlackViewOpenResponse.mk false none (some "channel_not_found"))
    rfl rfl rfl rfl rfl rfl rfl rfl rfl
  exact ⟨(h.1 (SlackClient.new "tok") "C1" "hi" none).1,
         (h.2.1 (SlackClient.new "tok") "C1" "U1" "hi" none).1,
         (h.2.2 (SlackClient.new "tok") "trig" Json.null).1⟩

/-- C8: a response object whose optional identifier and error fields are
all absent still decodes for each operation, with those fields `none`;
and a response lacking a boolean `ok` flag fails the decode entirely, so
the operation reports the decode-kind error rather than defaulting to
any value. -/
theorem absent_optionals_decode_and_malformed_fails
    (fields : List (String × Json))
    (hok : decodeBool (lookupField fields "ok") = none) :
    (∀ b : Bool,
      decodePostMessageResponse (Json.obj [("ok", .bool b)]) =
        some (SlackPostMessageResponse.mk b none none none) ∧
      decodeEphemeralResponse (Json.obj [("ok", .bool b)]) =
        some (SlackEphemeralResponse.mk b none none) ∧
      decodeViewOpenResponse (Json.obj [("ok", .bool b)]) =
        some (SlackViewOpenResponse.mk b none none)) ∧
    (decodePostMessageResponse (.obj fields) = none ∧
     decodeEphemeralResponse (.obj fields) = none ∧
     decodeViewOpenResponse (.obj fields) = none) ∧
    (∀ (c : SlackClient) (channel text : String) (blocks : Option Json),
      (c.post_message channel text blocks fun _ =>
          .response (some (.obj fields))).2 = .error .decode) ∧
    (∀ (c : SlackClient) (channel user_id text : String)
        (blocks : Option Json),
      (c.post_ephemeral channel user_id text blocks fun _ =>
          .response (some (.obj fields))).2 = .error .decode) ∧
    (∀ (c : SlackClient) (trigger_id : String) (view : Json),
      (c.open_modal trigger_id view fun _ =>
          .response (some (.obj fields))).2 = .error .decode) := by
  have hpm : decodePostMessageResponse (.obj fields) = none := by
    simp [decodePostMessageResponse, hok]
  have hep : decodeEphemeralResponse (.obj fields) = none := by
    simp [decodeEphemeralResponse, hok]
  have hvo : decodeViewOpenResponse (.obj fields) = none := by
    simp [decodeViewOpenResponse, hok]
  refine ⟨fun b => ⟨rfl, rfl, rfl⟩, ⟨hpm, hep, hvo⟩,
          fun c channel text blocks => ?_,
          fun c channel user_id text blocks => ?_,
          fun c trigger_id view => ?_⟩
  · simp [SlackClient.post_message, handleResponse, hpm]
  · simp [SlackClient.post_ephemeral, handleResponse, hep]
  · simp [SlackClient.open_modal, handleResponse, hvo]

/-- Witness for C8 at the empty response object `{}` (no boolean `ok`). -/
theorem absent_optionals_decode_and_malformed_fails_witness :
    decodePostMessageResponse (Json.obj [("ok", .bool true)]) =
      some (SlackPostMessageResponse.mk true none none none) ∧
    decodePostMessageResponse (.obj []) = none ∧
    ((SlackClient.new "tok").post_message "C1" "hi" none fun _ =>
        .response (some (.obj []))).2 = .error .decode := by
  have h := absent_optionals_decode_and_malformed_fails [] rfl
  exact ⟨(h.1 true).1, h.2.1.1,
         h.2.2.1 (SlackClient.new "tok") "C1" "hi" none⟩

/-- Counterexample to C9: the response types are plain structs, not
tagged results — a value of `SlackPostMessageResponse` holding success
flag true together with an error code exists and is even produced by the
decoder, so the mutual exclusivity is not impossible by construction. -/
theorem response_struct_holds_ok_and_error :
    decodePostMessageResponse
      (Json.obj [("ok", .bool true), ("error", .str "oops")]) =
      some (SlackPostMessageResponse.mk true none none (some "oops")) ∧
    (SlackPostMessageResponse.mk true none none (some "oops")).ok =
      true ∧
    (SlackPostMessageResponse.mk true none none (some "oops")).error =
      some "oops" :=
  ⟨rfl, rfl, rfl⟩

/-- C9 amended: each of the three response types is a single struct with
a boolean success flag and optional identifier/error fields; mutual
exclusivity of the flag and the error code is not structurally enforced
— each type admits (and decodes) a value with success flag true and an
error code present. -/
theorem response_structs_admit_ok_with_error :
    decodePostMessageResponse
      (Json.obj [("ok", .bool true), ("error", .str "oops")]) =
      some (SlackPostMessageResponse.mk true none none (some "oops")) ∧
    decodeEphemeralResponse
      (Json.obj [("ok", .bool true), ("error", .str "oops")]) =
      some (SlackEphemeralResponse.mk true none (some "oops")) ∧
    decodeViewOpenResponse
      (Json.obj [("ok", .bool true), ("error", .str "oops")]) =
      some (SlackViewOpenResponse.mk true none (some "oops")) :=
  ⟨rfl, rfl, rfl⟩

/-- C10: if `open_modal` receives `{"ok":true,"view":V}` where the
object `V` has no string-valued `id` field, the `SlackView` decode
fails, the whole response decode fails, and the operation returns the
decode-kind error instead of a success value with a partial view. -/
theorem open_modal_view_without_id_fails_decode
    (vf : List (String × Json))
    (h : ∀ s : String, lookupField vf "id" ≠ some (Json.str s)) :
    decodeSlackView (.obj vf) = none ∧
    decodeViewOpenResponse
      (Json.obj [("ok", .bool true), ("view", .obj vf)]) = none ∧
    ∀ (c : SlackClient) (trigger_id : String) (view : Json),
      (c.open_modal trigger_id view fun _ =>
          .response (some (Json.obj
            [("ok", .bool true), ("view", .obj vf)]))).2 =
        .error .decode := by
  have hview : decodeSlackView (.obj vf) = none := by
    show (decodeString (lookupField vf "id")).map SlackView.mk = none
    cases hl : lookupField vf "id" with
    | none => rfl
    | some j =>
        cases j with
        | str s => exact absurd hl (h s)
        | null => rfl
        | bool b => rfl
        | num n => rfl
        | arr xs => rfl
        | obj fs => rfl
  have hresp : decodeViewOpenResponse
      (Json.obj [("ok", .bool true), ("view", .obj vf)]) = none := by
    simp [decodeViewOpenResponse, decodeOptView, decodeBool, lookupField,
      hview]
  refine ⟨hview, hresp, fun c trigger_id view => ?_⟩
  simp [SlackClient.open_modal, handleResponse, hresp]

/-- Witness for C10 at the view object `{}` (no `id` field at all). -/
theorem open_modal_view_without_id_fails_decode_witness :
    decodeSlackView (.obj []) = none ∧
    decodeViewOpenResponse
      (Json.obj [("ok", .bool true), ("view", .obj [])]) = none ∧
    ((SlackClient.new "tok").open_modal "trig" Json.null fun _ =>
        .response (some (Json.obj
          [("ok", .bool true), ("view", .obj [])]))).2 =
      .error .decode := by
  have h := open_modal_view_without_id_fails_decode []
    (fun s hs => Option.noConfusion hs)
  exact ⟨h.1, h.2.1, h.2.2 (SlackClient.new "tok") "trig" Json.null⟩

end SlackRs
